import Mathlib

/-!
Verification of the `keyboard-types` crate's key identity model and
legacy-compatibility derivation, as a shallow embedding in Lean 4.

Rust strings are modelled as Lean `String`; `str::chars()` is `String.data`,
and the Rust byte length `str::len()` is the sum of the UTF-8 sizes of the
codepoints (`utf8Len`).  Fallible operations return `Except`/`Option`; the
panic inside `first_char` is modelled by returning `none`.
-/

namespace KeyboardTypes

/-- UTF-8 byte length of a list of codepoints: models Rust `str::len()`. -/
def utf8Len (cs : List Char) : Nat := (cs.map Char.utf8Size).sum

/-- Rust `char::is_control`: the Unicode `Cc` category,
`U+0000..U+001F` and `U+007F..U+009F`. -/
def isControlChar (c : Char) : Bool :=
  c.toNat < 0x20 || (0x7F ≤ c.toNat && c.toNat ≤ 0x9F)

/-- Rust `char::is_ascii`: codepoint at most `0x7F`. -/
def isAsciiChar (c : Char) : Bool := c.toNat ≤ 0x7F

/-- From `src/lib.rs`: return the first codepoint of a string.
The panic on an empty string is modelled by `none`. -/
def first_char (s : List Char) : Option Char := s.head?

/-- Modelled from the spec: `named_key.rs` is not among the given sources.
The spec describes `NamedKey` as a closed enumeration of identifier
constants, each with a canonical string form.  We include the seventeen
variants with fixed legacy keycodes, the `Unidentified` default
(`src/lib.rs`), and two further representatives (`F1`, `Fn`) standing for
the remaining variants with no derived behavior. -/
inductive NamedKey where
  | Backspace | Tab | Enter | Shift | Control | Alt | CapsLock | Escape
  | PageUp | PageDown | End | Home
  | ArrowLeft | ArrowUp | ArrowRight | ArrowDown | Delete
  | Unidentified | F1 | Fn
  deriving DecidableEq, Repr

/-- From `src/lib.rs`: `Default for NamedKey` is `Unidentified`. -/
instance : Inhabited NamedKey := ⟨NamedKey.Unidentified⟩

/-- Modelled from the spec: the canonical string of each `NamedKey`
variant (its `Display` impl, in the missing `named_key.rs`). -/
def NamedKey.display : NamedKey → String
  | .Backspace => "Backspace"
  | .Tab => "Tab"
  | .Enter => "Enter"
  | .Shift => "Shift"
  | .Control => "Control"
  | .Alt => "Alt"
  | .CapsLock => "CapsLock"
  | .Escape => "Escape"
  | .PageUp => "PageUp"
  | .PageDown => "PageDown"
  | .End => "End"
  | .Home => "Home"
  | .ArrowLeft => "ArrowLeft"
  | .ArrowUp => "ArrowUp"
  | .ArrowRight => "ArrowRight"
  | .ArrowDown => "ArrowDown"
  | .Delete => "Delete"
  | .Unidentified => "Unidentified"
  | .F1 => "F1"
  | .Fn => "Fn"

/-- Modelled from the spec: `NamedKey::from_str` (in the missing
`named_key.rs`) recognizes exactly the canonical strings; any other
input fails (`UnrecognizedNamedKeyError`), modelled by `none`. -/
def NamedKey.fromStr (s : String) : Option NamedKey :=
  if s = "Backspace" then some .Backspace
  else if s = "Tab" then some .Tab
  else if s = "Enter" then some .Enter
  else if s = "Shift" then some .Shift
  else if s = "Control" then some .Control
  else if s = "Alt" then some .Alt
  else if s = "CapsLock" then some .CapsLock
  else if s = "Escape" then some .Escape
  else if s = "PageUp" then some .PageUp
  else if s = "PageDown" then some .PageDown
  else if s = "End" then some .End
  else if s = "Home" then some .Home
  else if s = "ArrowLeft" then some .ArrowLeft
  else if s = "ArrowUp" then some .ArrowUp
  else if s = "ArrowRight" then some .ArrowRight
  else if s = "ArrowDown" then some .ArrowDown
  else if s = "Delete" then some .Delete
  else if s = "Unidentified" then some .Unidentified
  else if s = "F1" then some .F1
  else if s = "Fn" then some .Fn
  else none

/-- From `src/key.rs`: the value received from the keypress. -/
inductive Key where
  | Character (s : String)
  | Named (k : NamedKey)
  deriving DecidableEq, Repr

/-- From `src/key.rs`: parse-from-string error. -/
inductive UnrecognizedKeyError where
  | mk
  deriving DecidableEq, Repr

/-- From `src/key.rs`: `is_key_string` — a string can be used as a
`Key::Character` keystring iff it has no control characters and every
codepoint after the first is non-ASCII. -/
def is_key_string (s : String) : Bool :=
  s.data.all (fun c => !isControlChar c) &&
    (s.data.drop 1).all (fun c => !isAsciiChar c)

/-- From `src/key.rs`: the `Display` impl for `Key`. -/
def Key.display : Key → String
  | .Character s => s
  | .Named k => k.display

/-- From `src/key.rs`: the `FromStr` impl for `Key`. -/
def Key.from_str (s : String) : Except UnrecognizedKeyError Key :=
  if is_key_string s then
    .ok (.Character s)
  else
    match NamedKey.fromStr s with
    | some k => .ok (.Named k)
    | none => .error .mk

/-- From `src/key.rs`: `Key::legacy_charcode` — the first codepoint of a
`Character` payload (`'\0'`, i.e. 0, when empty), and 0 for `Named`. -/
def Key.legacy_charcode : Key → Nat
  | .Character s => (s.data.head?.getD (Char.ofNat 0)).toNat
  | .Named _ => 0

/-- From `src/key.rs`: the inner `match first_char(c)` of
`Key::legacy_keycode`, arm for arm. -/
def keycodeCharMatch (c : Char) : Nat :=
  if c = ' ' then 32
  else if '0' ≤ c ∧ c ≤ '9' then c.toNat
  else if 'a' ≤ c ∧ c ≤ 'z' then c.toNat - 32
  else if 'A' ≤ c ∧ c ≤ 'Z' then c.toNat
  else if c = ';' ∨ c = ':' then 186
  else if c = '=' ∨ c = '+' then 187
  else if c = ',' ∨ c = '<' then 188
  else if c = '-' ∨ c = '_' then 189
  else if c = '.' ∨ c = '>' then 190
  else if c = '/' ∨ c = '?' then 191
  else if c = '`' ∨ c = '~' then 192
  else if c = '[' ∨ c = '{' then 219
  else if c = '\\' ∨ c = '|' then 220
  else if c = ']' ∨ c = '}' then 221
  else if c = '\'' ∨ c = '\"' then 222
  else 0

/-- From `src/key.rs`: `Key::legacy_keycode`.  The named arms come first;
the `Character` arm is guarded by Rust byte length `c.len() == 1` and
calls `first_char`, whose potential panic is modelled by `Option`; the
final wildcard yields 0. -/
def Key.legacy_keycode : Key → Option Nat
  | .Named .Backspace => some 8
  | .Named .Tab => some 9
  | .Named .Enter => some 13
  | .Named .Shift => some 16
  | .Named .Control => some 17
  | .Named .Alt => some 18
  | .Named .CapsLock => some 20
  | .Named .Escape => some 27
  | .Named .PageUp => some 33
  | .Named .PageDown => some 34
  | .Named .End => some 35
  | .Named .Home => some 36
  | .Named .ArrowLeft => some 37
  | .Named .ArrowUp => some 38
  | .Named .ArrowRight => some 39
  | .Named .ArrowDown => some 40
  | .Named .Delete => some 46
  | .Character s =>
    if utf8Len s.data = 1 then (first_char s.data).map keycodeCharMatch
    else some 0
  | .Named _ => some 0

/-- From `src/lib.rs`: `Default for Key` is `Named(NamedKey::default())`. -/
instance : Inhabited Key := ⟨Key.Named default⟩

/-- From `src/key_state.rs`: the state a key is in. -/
inductive KeyState where
  | Down
  | Up
  deriving DecidableEq, Repr

/-- From `src/key_state.rs`: `Default for KeyState` is `Down`. -/
instance : Inhabited KeyState := ⟨KeyState.Down⟩

/-- From `src/key_state.rs`: `KeyState::event_type`. -/
def KeyState.event_type : KeyState → String
  | .Down => "keydown"
  | .Up => "keyup"

/-- From `src/composition.rs`: the state of a composition session. -/
inductive CompositionState where
  | Start
  | Update
  | End
  deriving DecidableEq, Repr

/-- From `src/composition.rs`: `CompositionState::event_type`. -/
def CompositionState.event_type : CompositionState → String
  | .Start => "compositionstart"
  | .Update => "compositionupdate"
  | .End => "compositionend"

/-- Modelled from the spec: `code.rs` is not among the given sources.  The
spec describes `Code` as a closed enumeration of physical key positions
with an `Unidentified` sentinel; we include `Unidentified` and two
representative positions. -/
inductive Code where
  | Unidentified
  | KeyA
  | Digit1
  deriving DecidableEq, Repr

/-- From `src/lib.rs`: `Default for Code` is `Unidentified`. -/
instance : Inhabited Code := ⟨Code.Unidentified⟩

/-- Modelled from the spec: `location.rs` is not among the given sources.
The spec only requires `Location` to be a value type with a default. -/
inductive Location where
  | Standard
  | Left
  | Right
  | Numpad
  deriving DecidableEq, Repr

/-- Modelled from the spec: the default `Location`. -/
instance : Inhabited Location := ⟨Location.Standard⟩

/-- Modelled from the spec: `modifiers.rs` is not among the given sources.
The spec describes `Modifiers` as a bit-flag container whose default is
no modifiers; we model it as its raw bit set. -/
structure Modifiers where
  bits : Nat
  deriving DecidableEq, Repr

/-- Modelled from the spec: the default `Modifiers` value, no modifiers. -/
instance : Inhabited Modifiers := ⟨⟨0⟩⟩

/-- From `src/keyboard_event.rs`: the keyboard event record. -/
structure KeyboardEvent where
  state : KeyState
  key : Key
  code : Code
  location : Location
  modifiers : Modifiers
  «repeat» : Bool
  is_composing : Bool
  deriving DecidableEq, Repr

/-- From `src/keyboard_event.rs`: the derived `Default` — every field at
its default (`bool` defaults to `false`). -/
instance : Inhabited KeyboardEvent :=
  ⟨{ state := default, key := default, code := default, location := default,
     modifiers := default, «repeat» := false, is_composing := false }⟩

/-- From `src/keyboard_event.rs`: `KeyboardEvent::key_down`. -/
def KeyboardEvent.key_down (key : Key) (code : Code) : KeyboardEvent :=
  { (default : KeyboardEvent) with state := .Down, key := key, code := code }

/-- From `src/keyboard_event.rs`: `KeyboardEvent::key_up`. -/
def KeyboardEvent.key_up (key : Key) (code : Code) : KeyboardEvent :=
  { (default : KeyboardEvent) with state := .Up, key := key, code := code }

/-- The single-codepoint `legacy_keycode` mapping as the specification
states it: space is 32, a digit is its ASCII codepoint, a letter is its
uppercase ASCII codepoint regardless of case, each punctuation pair has
one shared legacy code, and any other codepoint is 0. -/
def keycodeSpecChar (c : Char) : Nat :=
  if c = ' ' then 32
  else if '0' ≤ c ∧ c ≤ '9' then c.toNat
  else if 'a' ≤ c ∧ c ≤ 'z' then c.toNat - 32
  else if 'A' ≤ c ∧ c ≤ 'Z' then c.toNat
  else if c = ';' ∨ c = ':' then 186
  else if c = '=' ∨ c = '+' then 187
  else if c = ',' ∨ c = '<' then 188
  else if c = '-' ∨ c = '_' then 189
  else if c = '.' ∨ c = '>' then 190
  else if c = '/' ∨ c = '?' then 191
  else if c = '`' ∨ c = '~' then 192
  else if c = '[' ∨ c = '{' then 219
  else if c = '\\' ∨ c = '|' then 220
  else if c = ']' ∨ c = '}' then 221
  else if c = '\'' ∨ c = '\"' then 222
  else 0

/-- The `legacy_keycode` table for named keys as the specification states
it: the seventeen fixed historical codes, 0 for every other variant. -/
def namedKeycodeSpec : NamedKey → Nat
  | .Backspace => 8
  | .Tab => 9
  | .Enter => 13
  | .Shift => 16
  | .Control => 17
  | .Alt => 18
  | .CapsLock => 20
  | .Escape => 27
  | .PageUp => 33
  | .PageDown => 34
  | .End => 35
  | .Home => 36
  | .ArrowLeft => 37
  | .ArrowUp => 38
  | .ArrowRight => 39
  | .ArrowDown => 40
  | .Delete => 46
  | _ => 0

/-- Char order agrees with codepoint order. -/
lemma char_toNat_le_of_le {a b : Char} (h : a ≤ b) : a.toNat ≤ b.toNat :=
  Char.le_def.mp h

/-- An ASCII codepoint occupies one UTF-8 byte. -/
lemma utf8Size_of_ascii {c : Char} (h : c.toNat ≤ 127) : c.utf8Size = 1 := by
  simp only [Char.utf8Size]
  rw [if_pos]
  show c.val.toNat ≤ (127 : UInt32).toNat
  have h127 : (127 : UInt32).toNat = 127 := rfl
  have hv : c.toNat = c.val.toNat := rfl
  omega

/-- A non-ASCII codepoint occupies more than one UTF-8 byte. -/
lemma utf8Size_ne_one {c : Char} (h : 128 ≤ c.toNat) : c.utf8Size ≠ 1 := by
  simp only [Char.utf8Size]
  rw [if_neg]
  · split
    · decide
    · split <;> decide
  · show ¬ c.val.toNat ≤ (127 : UInt32).toNat
    have h127 : (127 : UInt32).toNat = 127 := rfl
    have hv : c.toNat = c.val.toNat := rfl
    omega

/-- Every entry of the specification's single-codepoint table is ASCII, so
a non-ASCII codepoint falls through to 0. -/
lemma keycodeSpecChar_of_not_ascii {c : Char} (h : 128 ≤ c.toNat) :
    keycodeSpecChar c = 0 := by
  have hne : ∀ d : Char, d.toNat ≤ 127 → ¬ c = d := by
    intro d hd he
    rw [he] at h
    omega
  have hnle : ∀ d : Char, d.toNat ≤ 127 → ¬ c ≤ d := by
    intro d hd hc
    have := char_toNat_le_of_le hc
    omega
  unfold keycodeSpecChar
  rw [if_neg (hne ' ' (by decide)),
      if_neg (fun hc => hnle '9' (by decide) hc.2),
      if_neg (fun hc => hnle 'z' (by decide) hc.2),
      if_neg (fun hc => hnle 'Z' (by decide) hc.2),
      if_neg (fun hc => hc.elim (hne ';' (by decide)) (hne ':' (by decide))),
      if_neg (fun hc => hc.elim (hne '=' (by decide)) (hne '+' (by decide))),
      if_neg (fun hc => hc.elim (hne ',' (by decide)) (hne '<' (by decide))),
      if_neg (fun hc => hc.elim (hne '-' (by decide)) (hne '_' (by decide))),
      if_neg (fun hc => hc.elim (hne '.' (by decide)) (hne '>' (by decide))),
      if_neg (fun hc => hc.elim (hne '/' (by decide)) (hne '?' (by decide))),
      if_neg (fun hc => hc.elim (hne '`' (by decide)) (hne '~' (by decide))),
      if_neg (fun hc => hc.elim (hne '[' (by decide)) (hne '{' (by decide))),
      if_neg (fun hc => hc.elim (hne '\\' (by decide)) (hne '|' (by decide))),
      if_neg (fun hc => hc.elim (hne ']' (by decide)) (hne '}' (by decide))),
      if_neg (fun hc => hc.elim (hne '\'' (by decide)) (hne '\"' (by decide)))]

/-- C1: for `Character(s)` with exactly one codepoint, `legacy_keycode`
returns the value of the specification's single-codepoint table (space 32,
digits their ASCII codepoint, letters their uppercase ASCII codepoint,
the eleven punctuation pairs their shared codes, anything else 0); for
zero or more than one codepoints it returns 0. -/
theorem keycode_character_matches_spec (s : String) :
    Key.legacy_keycode (Key.Character s) =
      some (match s.data with
            | [c] => keycodeSpecChar c
            | _ => 0) := by
  show (if utf8Len s.data = 1 then (first_char s.data).map keycodeCharMatch
        else some 0) = _
  match hs : s.data with
  | [] => rw [if_neg (by simp [utf8Len])]
  | [c] =>
    by_cases hc : c.toNat ≤ 127
    · rw [if_pos (by simp [utf8Len, utf8Size_of_ascii hc])]
      rfl
    · rw [if_neg (by simpa [utf8Len] using utf8Size_ne_one (by omega))]
      show some 0 = some (keycodeSpecChar c)
      rw [keycodeSpecChar_of_not_ascii (by omega)]
  | c1 :: c2 :: cs =>
    have h1 := Char.utf8Size_pos c1
    have h2 := Char.utf8Size_pos c2
    rw [if_neg (by simp [utf8Len]; omega)]

/-- C5: `legacy_keycode` on `Named(k)` returns the fixed historical code
for the seventeen listed named keys and 0 for every other variant of the
(spec-modelled) `NamedKey` enumeration. -/
theorem keycode_named_matches_spec (k : NamedKey) :
    Key.legacy_keycode (Key.Named k) = some (namedKeycodeSpec k) := by
  cases k <;> rfl

/-- C7: `legacy_keycode` is total — the `first_char` panic, modelled as
`none`, is unreachable because `first_char` is only invoked under the
single-byte length guard — and `legacy_charcode` is a total function. -/
theorem legacy_keycode_never_panics (k : Key) :
    (Key.legacy_keycode k).isSome = true ∧
      ∃ n : Nat, Key.legacy_charcode k = n := by
  refine ⟨?_, Key.legacy_charcode k, rfl⟩
  cases k with
  | Named n => cases n <;> rfl
  | Character s =>
    show (if utf8Len s.data = 1 then (first_char s.data).map keycodeCharMatch
          else some 0).isSome = true
    split
    · next h =>
      match hs : s.data with
      | [] => rw [hs] at h; simp [utf8Len] at h
      | c :: cs => rfl
    · rfl

/-- C6: `legacy_charcode` is the codepoint of the first character of a
`Character` payload, 0 for the empty payload, and 0 for every `Named`
key. -/
theorem legacy_charcode_spec :
    (∀ s : String, Key.legacy_charcode (Key.Character s) =
        (match s.data with | [] => 0 | c :: _ => c.toNat)) ∧
    (∀ n : NamedKey, Key.legacy_charcode (Key.Named n) = 0) := by
  constructor
  · intro s
    show (s.data.head?.getD (Char.ofNat 0)).toNat = _
    match s.data with
    | [] => rfl
    | c :: cs => rfl
  · intro n
    rfl

/-- C4: `is_key_string` holds iff the string has no control characters
and every codepoint after the first is non-ASCII; in particular `"A"` is
valid while `"AA"` and a lone tab are not. -/
theorem is_key_string_spec :
    (∀ s : String, is_key_string s = true ↔
        ((∀ c ∈ s.data, isControlChar c = false) ∧
         (∀ c ∈ s.data.drop 1, isAsciiChar c = false))) ∧
    is_key_string "A" = true ∧ is_key_string "AA" = false ∧
    is_key_string "\t" = false := by
  refine ⟨fun s => ?_, rfl, rfl, rfl⟩
  simp [is_key_string, List.all_eq_true]

/-- Witness for C4: the characterization applied at the concrete string
`"0"`. -/
theorem is_key_string_spec_witness : is_key_string "0" = true :=
  ((is_key_string_spec).1 "0").mpr ⟨by decide, by decide⟩

/-- C2: `from_str` returns `Character(s)` when the key-string predicate
holds, otherwise `Named(k)` when `s` is a canonical `NamedKey` string,
and fails — with exactly `UnrecognizedKeyError` — iff neither holds. -/
theorem from_str_spec (s : String) :
    (is_key_string s = true → Key.from_str s = Except.ok (Key.Character s)) ∧
    (is_key_string s = false → ∀ k, NamedKey.fromStr s = some k →
        Key.from_str s = Except.ok (Key.Named k)) ∧
    ((∃ e, Key.from_str s = Except.error e) ↔
        (is_key_string s = false ∧ NamedKey.fromStr s = none)) ∧
    (∀ e, Key.from_str s = Except.error e → e = UnrecognizedKeyError.mk) := by
  unfold Key.from_str
  by_cases h : is_key_string s
  · simp [h]
  · rw [if_neg h]
    cases hk : NamedKey.fromStr s with
    | none =>
      simp [h, hk]
      exact ⟨UnrecognizedKeyError.mk, trivial⟩
    | some k => simp [h, hk]

/-- Witness for C2: the three branches of `from_str` at concrete
inputs. -/
theorem from_str_spec_witness :
    Key.from_str "A" = Except.ok (Key.Character "A") ∧
    Key.from_str "Enter" = Except.ok (Key.Named NamedKey.Enter) ∧
    (∃ e, Key.from_str "Ennter" = Except.error e) :=
  ⟨(from_str_spec "A").1 rfl,
   (from_str_spec "Enter").2.1 rfl NamedKey.Enter rfl,
   ((from_str_spec "Ennter").2.2.1).mpr ⟨rfl, rfl⟩⟩

/-- C3: round trip — every `Key` produced by `from_str` parses back from
its display form to itself. -/
theorem from_str_display_round_trip (s : String) (k : Key)
    (h : Key.from_str s = Except.ok k) :
    Key.from_str (Key.display k) = Except.ok k := by
  unfold Key.from_str at h
  by_cases hs : is_key_string s
  · rw [if_pos hs] at h
    cases h
    show Key.from_str s = Except.ok (Key.Character s)
    unfold Key.from_str
    rw [if_pos hs]
  · rw [if_neg hs] at h
    cases hk : NamedKey.fromStr s with
    | none => rw [hk] at h; cases h
    | some n =>
      rw [hk] at h
      cases h
      cases n <;> rfl

/-- Witness for C3: the round trip at the concrete input `"Enter"`. -/
theorem from_str_display_round_trip_witness :
    Key.from_str (Key.display (Key.Named NamedKey.Enter)) =
      Except.ok (Key.Named NamedKey.Enter) :=
  from_str_display_round_trip "Enter" (Key.Named NamedKey.Enter) rfl

/-- C8: `key_down` and `key_up` set `state` to `Down` resp. `Up`, store
the given `key` and `code`, and leave every other field at its default
(default location, no modifiers, not repeated, not composing). -/
theorem key_down_key_up_spec (key : Key) (code : Code) :
    KeyboardEvent.key_down key code =
      { state := KeyState.Down, key := key, code := code,
        location := default, modifiers := default,
        «repeat» := false, is_composing := false } ∧
    KeyboardEvent.key_up key code =
      { state := KeyState.Up, key := key, code := code,
        location := default, modifiers := default,
        «repeat» := false, is_composing := false } ∧
    (default : Modifiers) = ⟨0⟩ :=
  ⟨rfl, rfl, rfl⟩

/-- C9: the `event_type` accessors return exactly the five constant
event-type strings, one per enum value. -/
theorem event_type_strings :
    KeyState.event_type KeyState.Down = "keydown" ∧
    KeyState.event_type KeyState.Up = "keyup" ∧
    CompositionState.event_type CompositionState.Start = "compositionstart" ∧
    CompositionState.event_type CompositionState.Update = "compositionupdate" ∧
    CompositionState.event_type CompositionState.End = "compositionend" :=
  ⟨rfl, rfl, rfl, rfl, rfl⟩

/-- C10: the empty string satisfies the key-string predicate vacuously,
so `from_str("")` succeeds with `Character("")`. -/
theorem from_str_empty_string :
    is_key_string "" = true ∧
    Key.from_str "" = Except.ok (Key.Character "") :=
  ⟨rfl, rfl⟩

end KeyboardTypes
